import Mathlib

/-
Verification of the `gdp` crate ("Ghosts of Departed Proofs"): a shallow
embedding of its proof core (src/proof.rs, src/prop.rs), its unique-naming
mechanism (src/named.rs) and the worked JWT/permissions example
(tests/jwt.rs), with theorems settling the specification's claims.
-/

set_option autoImplicit false

namespace Gdp

/-- `Proof<P>` from src/proof.rs: `pub struct Proof<P>(PD<P>);` — a zero-size
witness indexed by a phantom proposition `P`.  The `PhantomData` field has no
runtime content, so the embedding is a fieldless single-constructor
structure. -/
structure Proof (P : Type) : Type where
  mk ::

/-- `pub fn axiom<P>() -> Proof<P> { Proof(PD) }` from src/proof.rs — the
trusted primitive that conjures a proof out of thin air.  (Named `axm` here
because `axiom` is a Lean keyword.) -/
def axm {P : Type} : Proof P := Proof.mk

/-- `pub fn sorry<P>() -> Proof<P> { Proof(PD) }` from src/proof.rs — the
stubbing variant with an identical implementation.  (Named `stub` here
because `sorry` is a Lean keyword.) -/
def stub {P : Type} : Proof P := Proof.mk

/-- `pub struct True;` from src/prop.rs — phantom marker, never carries data. -/
structure True : Type

/-- `pub struct False;` from src/prop.rs. -/
structure False : Type

/-- `pub struct And<P, Q>(P, Q);` from src/prop.rs — a phantom proposition
shape; its fields are private and no constructor is exposed, so it is never
instantiated and the embedding keeps only the type parameters. -/
structure And (P Q : Type) : Type

/-- `pub struct Or<P, Q>(P, Q);` from src/prop.rs. -/
structure Or (P Q : Type) : Type

/-- `pub struct Not<P>(P);` from src/prop.rs. -/
structure Not (P : Type) : Type

/-- `pub struct Impl<P, Q>(P, Q);` from src/prop.rs. -/
structure Impl (P Q : Type) : Type

/-- `pub fn t() -> Proof<True> { axiom() }` from src/prop.rs. -/
def t : Proof True := axm

/-- `Proof::<P>::non_contra` from src/prop.rs:
`pub fn non_contra(self) -> Proof<Not<And<P, Not<P>>>> { axiom() }`. -/
def Proof.non_contra {P : Type} (_self : Proof P) : Proof (Not (And P (Not P))) :=
  axm

/-- `pub fn and<P, Q>(_: Proof<P>, _: Proof<Q>) -> Proof<And<P, Q>> { axiom() }`
from src/prop.rs. -/
def and {P Q : Type} (_p : Proof P) (_q : Proof Q) : Proof (And P Q) :=
  axm

/-- `pub fn or_l<P, Q>(_: Proof<P>) -> Proof<Or<P, Q>> { axiom() }` from
src/prop.rs. -/
def or_l {P Q : Type} (_p : Proof P) : Proof (Or P Q) :=
  axm

/-- `pub fn or_r<P, Q>(_: Proof<Q>) -> Proof<Or<P, Q>> { axiom() }` from
src/prop.rs. -/
def or_r {P Q : Type} (_q : Proof Q) : Proof (Or P Q) :=
  axm

/-- `pub fn implication<P, Q>(_: impl FnOnce(Proof<P>) -> Proof<Q>) ->
Proof<Impl<P, Q>> { axiom() }` from src/prop.rs: the derivation closure is
bound to `_` and never called. -/
def implication {P Q : Type} (_f : Proof P → Proof Q) : Proof (Impl P Q) :=
  axm

/-- `pub fn intro_not<P>(_: impl FnOnce(Proof<P>) -> Proof<False>) ->
Proof<Not<P>> { axiom() }` from src/prop.rs. -/
def intro_not {P : Type} (_f : Proof P → Proof False) : Proof (Not P) :=
  axm

/-- `Proof::<And<P, Q>>::elim_l` from src/prop.rs:
`pub fn elim_l(self) -> Proof<P> { axiom() }`. -/
def Proof.elim_l {P Q : Type} (_self : Proof (And P Q)) : Proof P :=
  axm

/-- `Proof::<And<P, Q>>::elim_r` from src/prop.rs:
`pub fn elim_r(self) -> Proof<Q> { axiom() }`. -/
def Proof.elim_r {P Q : Type} (_self : Proof (And P Q)) : Proof Q :=
  axm

/-- `Proof::<And<P, Q>>::elim` (for `P: Copy, Q: Copy`) from src/prop.rs:
`pub fn elim(self) -> (Proof<P>, Proof<Q>) { (self.elim_l(), self.elim_r()) }`.
The `Copy` bounds are erased: every phantom proposition here is `Copy`. -/
def Proof.elim {P Q : Type} (self : Proof (And P Q)) : Proof P × Proof Q :=
  (self.elim_l, self.elim_r)

/-- `Proof::<Or<P, Q>>::elim` from src/prop.rs: disjunction elimination.
`pub fn elim<R>(self, _: impl FnOnce(Proof<P>) -> Proof<R>, _: impl
FnOnce(Proof<Q>) -> Proof<R>) -> Proof<R> { axiom() }` — both case closures
are bound to `_` and never called.  (Named `or_elim` because Lean cannot
overload the three `elim` impls of the source on one name.) -/
def Proof.or_elim {P Q R : Type} (_self : Proof (Or P Q))
    (_caseP : Proof P → Proof R) (_caseQ : Proof Q → Proof R) : Proof R :=
  axm

/-- `Proof::<Impl<P, Q>>::elim` from src/prop.rs (modus ponens):
`pub fn elim(self, _: Proof<P>) -> Proof<Q> { axiom() }`. -/
def Proof.impl_elim {P Q : Type} (_self : Proof (Impl P Q)) (_p : Proof P) :
    Proof Q :=
  axm

/-- `Proof::<False>::absurd` from src/prop.rs:
`pub fn absurd<P>(self) -> Proof<P> { axiom() }`. -/
def Proof.absurd {P : Type} (_self : Proof False) : Proof P :=
  axm

/-!  Effect-aware reading of the closure-taking operations.  A Rust `FnOnce`
closure may capture and mutate arbitrary state; to make closure invocation
observable we also embed each closure as an explicit state transformer
`Proof _ → σ → Proof _ × σ` over an arbitrary state type `σ`, and re-read the
same source bodies under that convention.  Each source body is exactly
`axiom()` and mentions neither closure, so in the effectful reading the
result is the trusted `axm` and the state is returned untouched. -/

/-- A Rust `FnOnce(A) -> B` closure with its (possibly mutated) captured
state made explicit as a state type `σ`. -/
def FnOnceE (σ A B : Type) : Type :=
  A → σ → B × σ

/-- Effect-aware reading of `Proof::<Or<P, Q>>::elim` (src/prop.rs): the
body `axiom()` invokes neither case closure, so the state passes through. -/
def Proof.or_elimE {σ P Q R : Type} (_self : Proof (Or P Q))
    (_caseP : FnOnceE σ (Proof P) (Proof R))
    (_caseQ : FnOnceE σ (Proof Q) (Proof R)) : σ → Proof R × σ :=
  fun s => (axm, s)

/-- Effect-aware reading of `implication` (src/prop.rs): the derivation
closure is never invoked. -/
def implicationE {σ P Q : Type} (_f : FnOnceE σ (Proof P) (Proof Q)) :
    σ → Proof (Impl P Q) × σ :=
  fun s => (axm, s)

/-- Effect-aware reading of `intro_not` (src/prop.rs): the refutation
closure is never invoked. -/
def intro_notE {σ P : Type} (_f : FnOnceE σ (Proof P) (Proof False)) :
    σ → Proof (Not P) × σ :=
  fun s => (axm, s)

/-- `Name<'name>` from src/named.rs: `pub struct Name<'name>(PhantomData<fn(&'name
()) -> &'name ()>);` — a zero-size brand.  The invariant lifetime `'name` is
embedded as a phantom type parameter `n`. -/
structure Name (n : Type) : Type where
  mk ::

/-- `pub fn gen<'name>() -> Name<'name> { Name(PhantomData) }` from
src/named.rs. -/
def gen {n : Type} : Name n :=
  Name.mk

/-- `pub struct Named<'name, V>(Name<'name>, V);` from src/named.rs — an
arbitrary value paired with a brand. -/
structure Named (n V : Type) : Type where
  fst : Name n
  snd : V

/-- `Named::name` from src/named.rs: `pub fn name(self) -> Name<'name> {
self.0 }` — extracts the Name, consuming the pairing. -/
def Named.name {n V : Type} (self : Named n V) : Name n :=
  self.fst

/-- `impl Deref for Named` from src/named.rs: `fn deref(&self) -> &Self::Target
{ &self.1 }` — read-only transparent access to the wrapped value. -/
def Named.deref {n V : Type} (self : Named n V) : V :=
  self.snd

/-- `pub fn name<V, T>(value: V, f: impl for<'name> FnOnce(Named<'name, V>) ->
T) -> T { f(Named(gen(), value)) }` from src/named.rs.  The rank-2 lifetime
quantification `for<'name>` becomes quantification over the brand type `n`;
the fresh brand instantiates `n` at `PUnit`. -/
def name {V T : Type} (value : V) (f : (n : Type) → Named n V → T) : T :=
  f PUnit (Named.mk gen value)

end Gdp

/-!  The worked JWT / permissions example of tests/jwt.rs.  The external
`jwt` and `serde_json` crates only supply base64/JSON plumbing; a token
string is embedded as its decoded content (header and claims as JSON
values), and a verifying algorithm as a function from that content to
`Result<bool, jwt::Error>` (`Except Unit Bool`, the error payload being
irrelevant to the code under study).  Everything else is translated
line-by-line from tests/jwt.rs. -/

namespace GdpJwt

/-- `serde_json::Value` (the subset the example touches). -/
inductive Value : Type where
  | null : Value
  | bool (b : Bool) : Value
  | num (n : Int) : Value
  | str (s : String) : Value
  | arr (elems : List Value) : Value
  | obj (fields : List (String × Value)) : Value

/-- Key lookup in a JSON object (first binding wins), used by
`Value::get`. -/
def lookupField : List (String × Value) → String → Option Value
  | [], _ => none
  | (k, v) :: rest, key => if k == key then some v else lookupField rest key

/-- `Value::get(key)`: `Some` of the field on objects, `None` otherwise. -/
def Value.get : Value → String → Option Value
  | Value.obj fields, key => lookupField fields key
  | _, _ => none

/-- `Value::as_str`. -/
def Value.as_str : Value → Option String
  | Value.str s => some s
  | _ => none

/-- `Value::as_bool`. -/
def Value.as_bool : Value → Option Bool
  | Value.bool b => some b
  | _ => none

/-- `Value::as_array`. -/
def Value.as_array : Value → Option (List Value)
  | Value.arr elems => some elems
  | _ => none

/-- A decoded token string: header and claims (the signature part carries no
information for the `AlgorithmType::None` flow used here). -/
structure TokenStr : Type where
  header : Value
  claims : Value

/-- A `VerifyingAlgorithm` as the example exercises it: `verify_bytes`
inspects the decoded token and answers `Ok(bool)` or `Err(_)`. -/
def Algo : Type :=
  TokenStr → Except Unit Bool

/-- `DummyAlgo(String)` from the test module of tests/jwt.rs: reads the
header's `"from"` field and compares it with the stored issuer string;
a missing or non-string field is `Err(InvalidSignature)`. -/
def DummyAlgo (secret : String) : Algo :=
  fun tok =>
    match (tok.header.get "from").bind Value.as_str with
    | some s => Except.ok (s == secret)
    | none => Except.error ()

/-- `pub struct Key<A, I>(A, I);` from tests/jwt.rs — a verification key
carrying its algorithm, with the issuer as a phantom index `I`. -/
structure Key (I : Type) : Type where
  algo : Algo

/-- `pub struct Azure;` from tests/jwt.rs. -/
structure Azure : Type

/-- `pub struct Okta;` from tests/jwt.rs. -/
structure Okta : Type

/-- `pub struct IssuedBy<'name, I>(Name<'name>, I);` — phantom proposition. -/
structure IssuedBy (n I : Type) : Type

/-- `pub struct HasRole<'name, R>(Name<'name>, R);` — phantom proposition. -/
structure HasRole (n R : Type) : Type

/-- `pub struct JwtOf<'name>(Name<'name>, Jwt);` from tests/jwt.rs, with the
inner `Jwt { token }` collapsed to the verified token content. -/
structure JwtOf (n : Type) : Type where
  nm : Gdp.Name n
  token : TokenStr

/-- `impl Deref for JwtOf`: read-only access to the verified token. -/
def JwtOf.deref {n : Type} (self : JwtOf n) : TokenStr :=
  self.token

/-- `pub trait Role { fn name(&self) -> &'static str; }` from tests/jwt.rs. -/
class Role (R : Type) : Type where
  name : R → String

/-- `pub struct Admin;` from tests/jwt.rs. -/
structure Admin : Type

/-- `impl Role for Admin { fn name(&self) -> &'static str { "admin" } }`. -/
instance instRoleAdmin : Role Admin :=
  Role.mk (fun _ => "admin")

/-- `Jwt::new` from tests/jwt.rs: `let token =
token_str.verify_with_key(&key.0)?; Ok((JwtOf(token_str.name(), Jwt { token }),
axiom()))`.  `verify_with_key` runs the key's algorithm on the decoded token
and fails when the algorithm errs or answers `false`. -/
def Jwt.new {n I : Type} (key : Key I) (token_str : Gdp.Named n TokenStr) :
    Except Unit (JwtOf n × Gdp.Proof (IssuedBy n I)) :=
  match key.algo token_str.deref with
  | Except.ok true => Except.ok (JwtOf.mk token_str.name token_str.deref, Gdp.axm)
  | Except.ok false => Except.error ()
  | Except.error e => Except.error e

/-- `has_azure_role` from tests/jwt.rs:
`let roles = jwt.token.claims().get("roles")?;
roles.as_array()?.iter().filter_map(|r| r.as_str()).any(|r| r ==
role.name()).then(axiom)`. -/
def has_azure_role {n R : Type} [Role R] (jwt : JwtOf n) (role : R)
    (_p : Gdp.Proof (IssuedBy n Azure)) : Option (Gdp.Proof (HasRole n R)) :=
  match jwt.deref.claims.get "roles" with
  | none => none
  | some roles =>
    match roles.as_array with
    | none => none
    | some arr =>
      if (arr.filterMap Value.as_str).any (fun r => r == Role.name role) then
        some Gdp.axm
      else
        none

/-- `has_okta_role` from tests/jwt.rs:
`jwt.token.claims().get(role.name())?.as_bool()?.then(axiom)`. -/
def has_okta_role {n R : Type} [Role R] (jwt : JwtOf n) (role : R)
    (_p : Gdp.Proof (IssuedBy n Okta)) : Option (Gdp.Proof (HasRole n R)) :=
  match jwt.deref.claims.get (Role.name role) with
  | none => none
  | some v =>
    match v.as_bool with
    | none => none
    | some b => if b then some Gdp.axm else none

/-- `pub struct CanViewApps<'name>(Name<'name>);` from tests/jwt.rs. -/
structure CanViewApps (n : Type) : Type

/-- `pub struct CanDeleteApp<'name>(Name<'name>);` from tests/jwt.rs. -/
structure CanDeleteApp (n : Type) : Type

/-- `can_view_apps` from tests/jwt.rs: viewing needs a JWT issued by Azure
or Okta. -/
def can_view_apps {n : Type}
    (_p : Gdp.Proof (Gdp.Or (IssuedBy n Azure) (IssuedBy n Okta))) :
    Gdp.Proof (CanViewApps n) :=
  Gdp.axm

/-- `can_delete_app` from tests/jwt.rs: deleting needs a JWT with the admin
role. -/
def can_delete_app {n : Type} (_p : Gdp.Proof (HasRole n Admin)) :
    Gdp.Proof (CanDeleteApp n) :=
  Gdp.axm

/-- `pub enum Error { NoRole, JwtParseFailed }` from tests/jwt.rs. -/
inductive Error : Type where
  | NoRole : Error
  | JwtParseFailed : Error
deriving DecidableEq

/-- `pub fn delete_app(_: Proof<CanDeleteApp>) -> String`. -/
def delete_app {n : Type} (_p : Gdp.Proof (CanDeleteApp n)) : String :=
  "Nuke it to the ground"

/-- `pub fn list_apps(_: Proof<CanViewApps>) -> Vec<String>`. -/
def list_apps {n : Type} (_p : Gdp.Proof (CanViewApps n)) : List String :=
  ["app1", "app2"]

/-- Rust `Result::map`. -/
def rmap {ε α β : Type} (x : Except ε α) (f : α → β) : Except ε β :=
  match x with
  | Except.ok a => Except.ok (f a)
  | Except.error e => Except.error e

/-- Rust `Result::map_err`. -/
def map_err {ε η α : Type} (x : Except ε α) (f : ε → η) : Except η α :=
  match x with
  | Except.ok a => Except.ok a
  | Except.error e => Except.error (f e)

/-- Rust `Result::or_else`. -/
def or_else {ε η α : Type} (x : Except ε α) (f : ε → Except η α) : Except η α :=
  match x with
  | Except.ok a => Except.ok a
  | Except.error e => f e

/-- Rust `Result::and_then`. -/
def and_then {ε α β : Type} (x : Except ε α) (f : α → Except ε β) : Except ε β :=
  match x with
  | Except.ok a => f a
  | Except.error e => Except.error e

/-- Rust `Option::ok_or_else`. -/
def ok_or_else {α ε : Type} (o : Option α) (e : Unit → ε) : Except ε α :=
  match o with
  | some a => Except.ok a
  | none => Except.error (e ())

/-- Rust's `?` operator followed by the function's trailing `Ok(body)`:
propagate an error, otherwise finish with `Ok` of the rest of the body. -/
def qmark {ε α β : Type} (x : Except ε α) (body : α → β) : Except ε β :=
  match x with
  | Except.error e => Except.error e
  | Except.ok a => Except.ok (body a)

/-- `try_to_list_apps` from tests/jwt.rs: inside `name(&*token_str, |token_str|
{ ... })`, try the Azure key (tagging the proof with `or_l`), fall back to the
Okta key (`or_r`), collapse any error to `JwtParseFailed` at the `?`, then
list via `can_view_apps`.  (`token_str.clone()` is the identity here since
`Named` derives `Clone`.) -/
def try_to_list_apps (token_str : TokenStr) (azure_key : Key Azure)
    (okta_key : Key Okta) : Except Error (List String) :=
  Gdp.name token_str (fun n token_str =>
    qmark
      (map_err
        (or_else
          (rmap (Jwt.new azure_key token_str)
            (fun x => (Gdp.or_l x.2 : Gdp.Proof (Gdp.Or (IssuedBy n Azure) (IssuedBy n Okta)))))
          (fun _ => rmap (Jwt.new okta_key token_str) (fun x => Gdp.or_r x.2)))
        (fun _ => Error.JwtParseFailed))
      (fun p => list_apps (can_view_apps p)))

/-- `try_to_delete_app` from tests/jwt.rs: try the Azure key and the Azure
role check (a missing role is `Error::NoRole`), on any error fall back to the
Okta key and the Okta role check, and finally `map_err(|_|
Error::JwtParseFailed)` before the `?` — which replaces *every* error,
including `NoRole`, with `JwtParseFailed`. -/
def try_to_delete_app (token_str : TokenStr) (azure_key : Key Azure)
    (okta_key : Key Okta) : Except Error String :=
  Gdp.name token_str (fun _n token_str =>
    qmark
      (map_err
        (or_else
          (and_then (map_err (Jwt.new azure_key token_str) (fun _ => Error.JwtParseFailed))
            (fun jp => ok_or_else ((has_azure_role jp.1 Admin.mk jp.2).map (fun p => (jp.1, p)))
              (fun _ => Error.NoRole)))
          (fun _ =>
            and_then (map_err (Jwt.new okta_key token_str) (fun _ => Error.JwtParseFailed))
              (fun jp => ok_or_else ((has_okta_role jp.1 Admin.mk jp.2).map (fun p => (jp.1, p)))
                (fun _ => Error.NoRole))))
        (fun _ => Error.JwtParseFailed))
      (fun jp => delete_app (can_delete_app jp.2)))

/-- `construct_jwt` from the test module: header `{"alg": "none", "from":
fake}` with claims `{"roles": roles}`. -/
def construct_jwt (fake : String) (roles : List String) : TokenStr :=
  TokenStr.mk
    (Value.obj [("alg", Value.str "none"), ("from", Value.str fake)])
    (Value.obj [("roles", Value.arr (roles.map Value.str))])

/-- `construct_azure_jwt` from the test module. -/
def construct_azure_jwt (roles : List String) : TokenStr :=
  construct_jwt "azure" roles

/-- `construct_okta_jwt` from the test module: each role becomes a boolean
`true` claim of its own. -/
def construct_okta_jwt (roles : List String) : TokenStr :=
  TokenStr.mk
    (Value.obj [("alg", Value.str "none"), ("from", Value.str "okta")])
    (Value.obj (roles.map (fun r => (r, Value.bool true))))

/-- The Azure key the tests configure: `Key::new(DummyAlgo("azure"), Azure)`. -/
def azure_key : Key Azure :=
  Key.mk (DummyAlgo "azure")

/-- The Okta key the tests configure: `Key::new(DummyAlgo("okta"), Okta)`. -/
def okta_key : Key Okta :=
  Key.mk (DummyAlgo "okta")

end GdpJwt

/-! ## Theorems settling the specification's claims -/

/-- Helper: a pipeline ending in `map_err(|_| JwtParseFailed)?` can only fail
with `JwtParseFailed`, whatever stands upstream. -/
theorem qmark_map_err_shape {α β : Type} (x : Except GdpJwt.Error α) (body : α → β) :
    GdpJwt.qmark (GdpJwt.map_err x (fun _ => GdpJwt.Error.JwtParseFailed)) body ≠
      Except.error GdpJwt.Error.NoRole ∧
    ∀ (e : GdpJwt.Error),
      GdpJwt.qmark (GdpJwt.map_err x (fun _ => GdpJwt.Error.JwtParseFailed)) body =
        Except.error e → e = GdpJwt.Error.JwtParseFailed := by
  cases x with
  | ok a => simp [GdpJwt.qmark, GdpJwt.map_err]
  | error e => simp [GdpJwt.qmark, GdpJwt.map_err]

/-- C1: `Proof::<Or<P, Q>>::elim`, `implication` and `intro_not` never invoke
the closures they are given, and their results do not depend on them.  In the
effect-aware reading (closures as state transformers over an arbitrary state
`σ`) each operation returns its input state untouched together with the fixed
trusted derivation, for *every* closure — so no closure's effect ever runs —
and in the pure reading the result is the same for any two choices of
closures. -/
theorem elim_ignores_closures :
    ∀ (σ P Q R : Type) (s : σ) (d : Gdp.Proof (Gdp.Or P Q))
      (f : Gdp.FnOnceE σ (Gdp.Proof P) (Gdp.Proof R))
      (g : Gdp.FnOnceE σ (Gdp.Proof Q) (Gdp.Proof R))
      (dv : Gdp.FnOnceE σ (Gdp.Proof P) (Gdp.Proof Q))
      (rf : Gdp.FnOnceE σ (Gdp.Proof P) (Gdp.Proof Gdp.False))
      (fp fp2 : Gdp.Proof P → Gdp.Proof R) (gp gp2 : Gdp.Proof Q → Gdp.Proof R)
      (dp dp2 : Gdp.Proof P → Gdp.Proof Q)
      (rp rp2 : Gdp.Proof P → Gdp.Proof Gdp.False),
      d.or_elimE f g s = (Gdp.axm, s) ∧
      Gdp.implicationE dv s = (Gdp.axm, s) ∧
      Gdp.intro_notE rf s = (Gdp.axm, s) ∧
      d.or_elim fp gp = d.or_elim fp2 gp2 ∧
      Gdp.implication dp = Gdp.implication dp2 ∧
      Gdp.intro_not rp = Gdp.intro_not rp2 := by
  intro σ P Q R s d f g dv rf fp fp2 gp gp2 dp dp2 rp rp2
  exact ⟨rfl, rfl, rfl, rfl, rfl, rfl⟩

/-- C4: the conjunction round-trip.  `and(p, q).elim_l()` gives back `p`,
`and(p, q).elim_r()` gives back `q`, and `and(p, q).elim()` is exactly the
pair `(elim_l, elim_r)`. -/
theorem and_round_trip :
    ∀ (P Q : Type) (p : Gdp.Proof P) (q : Gdp.Proof Q),
      (Gdp.and p q).elim_l = p ∧
      (Gdp.and p q).elim_r = q ∧
      (Gdp.and p q).elim = ((Gdp.and p q).elim_l, (Gdp.and p q).elim_r) := by
  intro P Q p q
  cases p
  cases q
  exact ⟨rfl, rfl, rfl⟩

/-- C6: every operation of the proof core is total and pure: on every input
it returns normally with the canonical zero-size witness (no panic, no
failure, no effect).  Each conjunct evaluates one operation — `t`,
`non_contra`, `and`, `or_l`, `or_r`, `implication`, `intro_not`, `elim_l`,
`elim_r`, `elim` on `And`/`Or`/`Impl`, `absurd`, `axiom` (`axm`) and `sorry`
(`stub`) — at arbitrary arguments. -/
theorem proof_core_total :
    ∀ (P Q R : Type) (p : Gdp.Proof P) (q : Gdp.Proof Q)
      (pq : Gdp.Proof (Gdp.And P Q)) (d : Gdp.Proof (Gdp.Or P Q))
      (i : Gdp.Proof (Gdp.Impl P Q)) (fls : Gdp.Proof Gdp.False)
      (cp : Gdp.Proof P → Gdp.Proof R) (cq : Gdp.Proof Q → Gdp.Proof R)
      (dv : Gdp.Proof P → Gdp.Proof Q) (rf : Gdp.Proof P → Gdp.Proof Gdp.False),
      Gdp.t = Gdp.Proof.mk ∧
      p.non_contra = Gdp.Proof.mk ∧
      Gdp.and p q = Gdp.Proof.mk ∧
      (Gdp.or_l p : Gdp.Proof (Gdp.Or P Q)) = Gdp.Proof.mk ∧
      (Gdp.or_r q : Gdp.Proof (Gdp.Or P Q)) = Gdp.Proof.mk ∧
      Gdp.implication dv = Gdp.Proof.mk ∧
      Gdp.intro_not rf = Gdp.Proof.mk ∧
      pq.elim_l = Gdp.Proof.mk ∧
      pq.elim_r = Gdp.Proof.mk ∧
      pq.elim = (Gdp.Proof.mk, Gdp.Proof.mk) ∧
      d.or_elim cp cq = Gdp.Proof.mk ∧
      i.impl_elim p = Gdp.Proof.mk ∧
      (fls.absurd : Gdp.Proof P) = Gdp.Proof.mk ∧
      (Gdp.axm : Gdp.Proof P) = Gdp.Proof.mk ∧
      (Gdp.stub : Gdp.Proof P) = Gdp.Proof.mk := by
  intro P Q R p q pq d i fls cp cq dv rf
  exact ⟨rfl, rfl, rfl, rfl, rfl, rfl, rfl, rfl, rfl, rfl, rfl, rfl, rfl, rfl, rfl⟩

/-- C7: `name(value, f)` returns exactly the continuation applied to a
`Named` wrapper pairing a fresh brand with the unchanged value; dereferencing
a `Named` wrapper yields the wrapped value unchanged, and `.name()` extracts
the `Name` from the pairing. -/
theorem name_applies_continuation :
    ∀ (V T : Type) (v : V) (f : (n : Type) → Gdp.Named n V → T)
      (n : Type) (nm : Gdp.Name n),
      Gdp.name v f = f PUnit (Gdp.Named.mk Gdp.gen v) ∧
      (Gdp.Named.mk nm v).deref = v ∧
      (Gdp.Named.mk nm v).name = nm := by
  intro V T v f n nm
  exact ⟨rfl, rfl, rfl⟩

/-- C3: whenever `try_to_delete_app` fails it fails with `JwtParseFailed`,
never with `NoRole`: the final `map_err(|_| Error::JwtParseFailed)` after the
Azure/Okta fallback chain replaces every upstream error — including the
missing-role error either branch produced — with the parse-failure error. -/
theorem delete_app_error_always_parse_failed :
    ∀ (t : GdpJwt.TokenStr) (ak : GdpJwt.Key GdpJwt.Azure) (okk : GdpJwt.Key GdpJwt.Okta),
      GdpJwt.try_to_delete_app t ak okk ≠ Except.error GdpJwt.Error.NoRole ∧
      ∀ (e : GdpJwt.Error), GdpJwt.try_to_delete_app t ak okk = Except.error e →
        e = GdpJwt.Error.JwtParseFailed := by
  intro t ak okk
  exact qmark_map_err_shape _ _

/-- Witness for C3 at the test harness's foreign-issuer token. -/
theorem delete_app_error_always_parse_failed_witness :
    GdpJwt.try_to_delete_app (GdpJwt.construct_jwt "fake" ["admin"]) GdpJwt.azure_key GdpJwt.okta_key ≠
      Except.error GdpJwt.Error.NoRole ∧
    GdpJwt.Error.JwtParseFailed = GdpJwt.Error.JwtParseFailed :=
  ⟨(delete_app_error_always_parse_failed (GdpJwt.construct_jwt "fake" ["admin"])
      GdpJwt.azure_key GdpJwt.okta_key).1,
   (delete_app_error_always_parse_failed (GdpJwt.construct_jwt "fake" ["admin"])
      GdpJwt.azure_key GdpJwt.okta_key).2 GdpJwt.Error.JwtParseFailed (by rfl)⟩

/-- C9: a token the Azure key verifies makes `try_to_list_apps` answer the
two-item app list, whatever its roles; likewise a token the Okta key
verifies. -/
theorem verified_token_lists_apps :
    ∀ (t : GdpJwt.TokenStr) (ak : GdpJwt.Key GdpJwt.Azure) (okk : GdpJwt.Key GdpJwt.Okta),
      (ak.algo t = Except.ok true →
        GdpJwt.try_to_list_apps t ak okk = Except.ok ["app1", "app2"]) ∧
      (okk.algo t = Except.ok true →
        GdpJwt.try_to_list_apps t ak okk = Except.ok ["app1", "app2"]) := by
  intro t ak okk
  constructor
  · intro h
    simp [GdpJwt.try_to_list_apps, Gdp.name, GdpJwt.Jwt.new, Gdp.Named.deref, Gdp.Named.name,
      GdpJwt.rmap, GdpJwt.or_else, GdpJwt.map_err, GdpJwt.qmark, GdpJwt.list_apps,
      GdpJwt.can_view_apps, h]
  · intro h
    cases hA : ak.algo t with
    | ok b =>
      cases b with
      | true =>
        simp [GdpJwt.try_to_list_apps, Gdp.name, GdpJwt.Jwt.new, Gdp.Named.deref, Gdp.Named.name,
          GdpJwt.rmap, GdpJwt.or_else, GdpJwt.map_err, GdpJwt.qmark, GdpJwt.list_apps,
          GdpJwt.can_view_apps, hA]
      | false =>
        simp [GdpJwt.try_to_list_apps, Gdp.name, GdpJwt.Jwt.new, Gdp.Named.deref, Gdp.Named.name,
          GdpJwt.rmap, GdpJwt.or_else, GdpJwt.map_err, GdpJwt.qmark, GdpJwt.list_apps,
          GdpJwt.can_view_apps, hA, h]
    | error e =>
      simp [GdpJwt.try_to_list_apps, Gdp.name, GdpJwt.Jwt.new, Gdp.Named.deref, Gdp.Named.name,
        GdpJwt.rmap, GdpJwt.or_else, GdpJwt.map_err, GdpJwt.qmark, GdpJwt.list_apps,
        GdpJwt.can_view_apps, hA, h]

/-- Witness for C9 at the test harness's Azure and Okta tokens (no roles). -/
theorem verified_token_lists_apps_witness :
    GdpJwt.try_to_list_apps (GdpJwt.construct_azure_jwt []) GdpJwt.azure_key GdpJwt.okta_key =
      Except.ok ["app1", "app2"] ∧
    GdpJwt.try_to_list_apps (GdpJwt.construct_okta_jwt []) GdpJwt.azure_key GdpJwt.okta_key =
      Except.ok ["app1", "app2"] :=
  ⟨(verified_token_lists_apps (GdpJwt.construct_azure_jwt []) GdpJwt.azure_key GdpJwt.okta_key).1
      (by rfl),
   (verified_token_lists_apps (GdpJwt.construct_okta_jwt []) GdpJwt.azure_key GdpJwt.okta_key).2
      (by rfl)⟩

/-- C10: a token the Okta key verifies whose claims hold the entry named
after the admin role (`"admin"`) set to boolean `true` makes
`try_to_delete_app` answer the fixed confirmation string — whatever the Azure
branch does first, every path ends in `delete_app`'s constant. -/
theorem okta_admin_token_deletes_app :
    ∀ (t : GdpJwt.TokenStr) (ak : GdpJwt.Key GdpJwt.Azure) (okk : GdpJwt.Key GdpJwt.Okta),
      okk.algo t = Except.ok true →
      t.claims.get "admin" = some (GdpJwt.Value.bool true) →
      GdpJwt.try_to_delete_app t ak okk = Except.ok "Nuke it to the ground" := by
  intro t ak okk hO hC
  cases hA : ak.algo t with
  | ok b =>
    cases b with
    | true =>
      cases hR : GdpJwt.has_azure_role (GdpJwt.JwtOf.mk Gdp.gen t : GdpJwt.JwtOf PUnit)
          GdpJwt.Admin.mk Gdp.axm with
      | some p =>
        simp [GdpJwt.try_to_delete_app, Gdp.name, GdpJwt.Jwt.new, Gdp.Named.deref,
          Gdp.Named.name, GdpJwt.and_then, GdpJwt.or_else, GdpJwt.map_err, GdpJwt.qmark,
          GdpJwt.ok_or_else, GdpJwt.delete_app, GdpJwt.can_delete_app, hA, hR]
      | none =>
        simp [GdpJwt.try_to_delete_app, Gdp.name, GdpJwt.Jwt.new, Gdp.Named.deref,
          Gdp.Named.name, GdpJwt.and_then, GdpJwt.or_else, GdpJwt.map_err, GdpJwt.qmark,
          GdpJwt.ok_or_else, GdpJwt.delete_app, GdpJwt.can_delete_app,
          GdpJwt.has_okta_role, GdpJwt.JwtOf.deref, GdpJwt.Role.name, GdpJwt.instRoleAdmin,
          GdpJwt.Value.as_bool, hA, hR, hO, hC]
    | false =>
      simp [GdpJwt.try_to_delete_app, Gdp.name, GdpJwt.Jwt.new, Gdp.Named.deref,
        Gdp.Named.name, GdpJwt.and_then, GdpJwt.or_else, GdpJwt.map_err, GdpJwt.qmark,
        GdpJwt.ok_or_else, GdpJwt.delete_app, GdpJwt.can_delete_app,
        GdpJwt.has_okta_role, GdpJwt.JwtOf.deref, GdpJwt.Role.name, GdpJwt.instRoleAdmin,
        GdpJwt.Value.as_bool, hA, hO, hC]
  | error e =>
    simp [GdpJwt.try_to_delete_app, Gdp.name, GdpJwt.Jwt.new, Gdp.Named.deref,
      Gdp.Named.name, GdpJwt.and_then, GdpJwt.or_else, GdpJwt.map_err, GdpJwt.qmark,
      GdpJwt.ok_or_else, GdpJwt.delete_app, GdpJwt.can_delete_app,
      GdpJwt.has_okta_role, GdpJwt.JwtOf.deref, GdpJwt.Role.name, GdpJwt.instRoleAdmin,
      GdpJwt.Value.as_bool, hA, hO, hC]

/-- Witness for C10 at the test harness's Okta token with the admin claim. -/
theorem okta_admin_token_deletes_app_witness :
    GdpJwt.try_to_delete_app (GdpJwt.construct_okta_jwt ["admin"]) GdpJwt.azure_key GdpJwt.okta_key =
      Except.ok "Nuke it to the ground" :=
  okta_admin_token_deletes_app (GdpJwt.construct_okta_jwt ["admin"]) GdpJwt.azure_key
    GdpJwt.okta_key (by rfl) (by rfl)

/-- C8: a token whose issuer claim (the header's `"from"` string, which the
test harness's `DummyAlgo` compares with the key's stored issuer) matches
neither the Azure key nor the Okta key fails both `try_to_list_apps` and
`try_to_delete_app` with `JwtParseFailed`. -/
theorem unmatched_issuer_fails_both :
    ∀ (t : GdpJwt.TokenStr) (s1 s2 f : String),
      t.header.get "from" = some (GdpJwt.Value.str f) →
      f ≠ s1 → f ≠ s2 →
      GdpJwt.try_to_list_apps t (GdpJwt.Key.mk (GdpJwt.DummyAlgo s1))
          (GdpJwt.Key.mk (GdpJwt.DummyAlgo s2)) =
        Except.error GdpJwt.Error.JwtParseFailed ∧
      GdpJwt.try_to_delete_app t (GdpJwt.Key.mk (GdpJwt.DummyAlgo s1))
          (GdpJwt.Key.mk (GdpJwt.DummyAlgo s2)) =
        Except.error GdpJwt.Error.JwtParseFailed := by
  intro t s1 s2 f hf h1 h2
  have hb1 : (f == s1) = false := beq_eq_false_iff_ne.mpr h1
  have hb2 : (f == s2) = false := beq_eq_false_iff_ne.mpr h2
  have d1 : GdpJwt.DummyAlgo s1 t = Except.ok false := by
    simp [GdpJwt.DummyAlgo, hf, GdpJwt.Value.as_str, Option.bind, hb1]
  have d2 : GdpJwt.DummyAlgo s2 t = Except.ok false := by
    simp [GdpJwt.DummyAlgo, hf, GdpJwt.Value.as_str, Option.bind, hb2]
  constructor
  · simp [GdpJwt.try_to_list_apps, Gdp.name, GdpJwt.Jwt.new, Gdp.Named.deref, Gdp.Named.name,
      GdpJwt.rmap, GdpJwt.or_else, GdpJwt.map_err, GdpJwt.qmark, d1, d2]
  · simp [GdpJwt.try_to_delete_app, Gdp.name, GdpJwt.Jwt.new, Gdp.Named.deref, Gdp.Named.name,
      GdpJwt.and_then, GdpJwt.or_else, GdpJwt.map_err, GdpJwt.qmark, GdpJwt.ok_or_else, d1, d2]

/-- Witness for C8 at the test harness's foreign-issuer token (issuer
`"fake"`, keys `"azure"` and `"okta"`). -/
theorem unmatched_issuer_fails_both_witness :
    GdpJwt.try_to_list_apps (GdpJwt.construct_jwt "fake" []) GdpJwt.azure_key GdpJwt.okta_key =
      Except.error GdpJwt.Error.JwtParseFailed ∧
    GdpJwt.try_to_delete_app (GdpJwt.construct_jwt "fake" []) GdpJwt.azure_key GdpJwt.okta_key =
      Except.error GdpJwt.Error.JwtParseFailed :=
  unmatched_issuer_fails_both (GdpJwt.construct_jwt "fake" []) "azure" "okta" "fake"
    (by rfl) (by decide) (by decide)

/-- Counterexample to C2: the test harness's Azure token without any role is
verified by the Azure key and fails the Azure admin-role check — the claim's
exact scenario — yet `try_to_delete_app` answers `JwtParseFailed`, not
`NoRole`: the error the claim predicts is never the result. -/
theorem azure_no_role_counterexample :
    GdpJwt.azure_key.algo (GdpJwt.construct_azure_jwt []) = Except.ok true ∧
    GdpJwt.has_azure_role (GdpJwt.JwtOf.mk Gdp.gen (GdpJwt.construct_azure_jwt []) :
        GdpJwt.JwtOf PUnit) GdpJwt.Admin.mk Gdp.axm = none ∧
    GdpJwt.try_to_delete_app (GdpJwt.construct_azure_jwt []) GdpJwt.azure_key GdpJwt.okta_key =
      Except.error GdpJwt.Error.JwtParseFailed ∧
    GdpJwt.try_to_delete_app (GdpJwt.construct_azure_jwt []) GdpJwt.azure_key GdpJwt.okta_key ≠
      Except.error GdpJwt.Error.NoRole := by
  refine ⟨rfl, rfl, rfl, ?_⟩
  intro h
  exact GdpJwt.Error.noConfusion (Except.error.inj h)

/-- C2 as amended: an Azure-verified token whose claims fail the admin-role
check — and which the Okta key does not verify, as an Azure-issued token —
makes `try_to_delete_app` fail, but with `JwtParseFailed`: the internal
`NoRole` error is replaced by the final `map_err`. -/
theorem azure_no_role_delete_parse_failure :
    ∀ (t : GdpJwt.TokenStr) (ak : GdpJwt.Key GdpJwt.Azure) (okk : GdpJwt.Key GdpJwt.Okta),
      ak.algo t = Except.ok true →
      GdpJwt.has_azure_role (GdpJwt.JwtOf.mk Gdp.gen t : GdpJwt.JwtOf PUnit)
        GdpJwt.Admin.mk Gdp.axm = none →
      (okk.algo t = Except.ok false ∨ ∃ e, okk.algo t = Except.error e) →
      GdpJwt.try_to_delete_app t ak okk = Except.error GdpJwt.Error.JwtParseFailed := by
  intro t ak okk hA hR hO
  rcases hO with hO | ⟨e, hO⟩ <;>
    simp [GdpJwt.try_to_delete_app, Gdp.name, GdpJwt.Jwt.new, Gdp.Named.deref, Gdp.Named.name,
      GdpJwt.and_then, GdpJwt.or_else, GdpJwt.map_err, GdpJwt.qmark, GdpJwt.ok_or_else,
      hA, hR, hO]

/-- Witness for the amended C2 at the test harness's role-less Azure token. -/
theorem azure_no_role_delete_parse_failure_witness :
    GdpJwt.try_to_delete_app (GdpJwt.construct_azure_jwt []) GdpJwt.azure_key GdpJwt.okta_key =
      Except.error GdpJwt.Error.JwtParseFailed :=
  azure_no_role_delete_parse_failure (GdpJwt.construct_azure_jwt []) GdpJwt.azure_key
    GdpJwt.okta_key (by rfl) (by rfl) (Or.inl (by rfl))


